import Mathlib

/- Shallow embedding of the tick-processing trading service
   (validators.py, aitool.py, business.py).
   Python floats are modelled as exact rationals; Python dicts built by
   comprehension are modelled by last-binding-wins association lookup. -/

namespace TickService

/-- JSON-like values as produced by json.loads: Python None, bool, int,
float (modelled as an exact rational), str, list and dict. -/
inductive JValue where
  | null
  | b (b : Bool)
  | i (n : Int)
  | f (q : Rat)
  | s (s : String)
  | arr (xs : List JValue)
  | obj (kvs : List (String × JValue))

/-- Lookup in a Python dict built from key/value bindings in order;
later bindings overwrite earlier ones, absent key gives none. -/
def pyGet? (kvs : List (String × JValue)) (k : String) : Option JValue :=
  kvs.foldl (fun acc kv => if kv.1 = k then some kv.2 else acc) none

/-- Python isinstance(x, str). -/
def isStrPy : JValue → Bool
  | .s _ => true
  | _ => false

/-- Python isinstance(x, (int, float)); bool is a subclass of int in Python,
so booleans pass this check. -/
def isNumberPy : JValue → Bool
  | .i _ => true
  | .f _ => true
  | .b _ => true
  | _ => false

/-- Python isinstance(x, (int, str)); booleans pass as ints. -/
def isIntOrStrPy : JValue → Bool
  | .i _ => true
  | .b _ => true
  | .s _ => true
  | _ => false

/-- ASCII whitespace removed by Python str.strip(). -/
def isSpacePy (c : Char) : Bool :=
  c = ' ' || c = '\t' || c = '\n' || c = '\r' || c = '\x0b' || c = '\x0c'

/-- Python str.strip() (ASCII whitespace at both ends). -/
def pyStrip (s : String) : String :=
  ⟨((s.data.dropWhile isSpacePy).reverse.dropWhile isSpacePy).reverse⟩

/-- Python str.upper() restricted to ASCII letters. -/
def pyUpper (s : String) : String :=
  ⟨s.data.map Char.toUpper⟩

mutual

/-- Python repr of a JSON-like value. Float repr is approximated by the
rational print form; it is never exercised by the theorems below, which
only apply str() to strings, ints and bools. -/
def pyRepr : JValue → String
  | .null => "None"
  | .b true => "True"
  | .b false => "False"
  | .i n => toString n
  | .f q => toString q
  | .s str => "\x27" ++ str ++ "\x27"
  | .arr xs => "[" ++ pyReprList xs ++ "]"
  | .obj kvs => "\x7b" ++ pyReprObj kvs ++ "\x7d"

/-- Comma-joined element reprs, as Python prints list bodies. -/
def pyReprList : List JValue → String
  | [] => ""
  | [x] => pyRepr x
  | x :: y :: rest => pyRepr x ++ ", " ++ pyReprList (y :: rest)

/-- Comma-joined key/value reprs, as Python prints dict bodies. -/
def pyReprObj : List (String × JValue) → String
  | [] => ""
  | [(k, v)] => "\x27" ++ k ++ "\x27: " ++ pyRepr v
  | (k, v) :: y :: rest => "\x27" ++ k ++ "\x27: " ++ pyRepr v ++ ", " ++ pyReprObj (y :: rest)

end

/-- Python str(x): strings pass through unchanged, everything else prints
via repr (True/False/None/digit strings). -/
def pyStr (v : JValue) : String :=
  match v with
  | .s str => str
  | other => pyRepr other

/-- Digits-only parse; an empty digit run fails (helper for Python int(str)). -/
def digitsToNat? (cs : List Char) : Option Nat :=
  if cs.isEmpty then none
  else cs.foldlM (fun acc c => if c.isDigit then some (acc * 10 + (c.toNat - 48)) else none) 0

/-- Python int(string): strip whitespace, optional sign, digit run;
anything else raises ValueError (modelled as none). -/
def pyIntOfString (s : String) : Option Int :=
  match (pyStrip s).data with
  | '-' :: rest => (digitsToNat? rest).map (fun n => -(n : Int))
  | '+' :: rest => (digitsToNat? rest).map (fun n => (n : Int))
  | cs => (digitsToNat? cs).map (fun n => (n : Int))

/-- Truncation toward zero, as Python int(float). -/
def pyTrunc (q : Rat) : Int :=
  if 0 ≤ q then Int.floor q else -(Int.floor (-q))

/-- Python int(x) as a partial coercion: succeeds on bool, int, float and
integer-literal strings; raises (modelled as none) on anything else. -/
def pyInt : JValue → Option Int
  | .b true => some 1
  | .b false => some 0
  | .i n => some n
  | .f q => some (pyTrunc q)
  | .s str => pyIntOfString str
  | _ => none

/-- Round to the nearest integer with ties to even, as Python round(). -/
def pyRoundInt (q : Rat) : Int :=
  let fl := Int.floor q
  let frac := q - (fl : Rat)
  if frac < 1 / 2 then fl
  else if 1 / 2 < frac then fl + 1
  else if fl % 2 = 0 then fl else fl + 1

/-- Python round(x, 2) on the exact-rational model of floats. -/
def round2 (q : Rat) : Rat :=
  (pyRoundInt (q * 100) : Rat) / 100

/- ===== validators.py : validate_tick_payload ===== -/

/-- Per-element checks of the Positions loop (validators.py lines 25-43):
object shape, presence of ticker/quantity/purchase_price, then their types. -/
def checkPositionItem (i : Nat) (pos : JValue) : Option String :=
  match pos with
  | .obj kvs =>
    if (pyGet? kvs "ticker").isNone then
      some ("Position at index " ++ toString i ++ " missing \x27ticker\x27")
    else if (pyGet? kvs "quantity").isNone then
      some ("Position at index " ++ toString i ++ " missing \x27quantity\x27")
    else if (pyGet? kvs "purchase_price").isNone then
      some ("Position at index " ++ toString i ++ " missing \x27purchase_price\x27")
    else if !isStrPy ((pyGet? kvs "ticker").getD JValue.null) then
      some ("Position at index " ++ toString i ++ ": \x27ticker\x27 must be a string")
    else if !isNumberPy ((pyGet? kvs "quantity").getD JValue.null) then
      some ("Position at index " ++ toString i ++ ": \x27quantity\x27 must be a number")
    else if !isNumberPy ((pyGet? kvs "purchase_price").getD JValue.null) then
      some ("Position at index " ++ toString i ++ ": \x27purchase_price\x27 must be a number")
    else none
  | _ => some ("Position at index " ++ toString i ++ " must be an object")

/-- The enumerate loop over Positions, returning the first failure. -/
def checkPositionList : Nat → List JValue → Option String
  | _, [] => none
  | i, pos :: rest =>
    match checkPositionItem i pos with
    | some m => some m
    | none => checkPositionList (i + 1) rest

/-- Validation of the Positions field (validators.py lines 14-43). -/
def checkPositionsField (kvs : List (String × JValue)) : Option String :=
  match pyGet? kvs "Positions" with
  | none => some "Missing required field: Positions"
  | some v =>
    match v with
    | .arr items =>
      if items.isEmpty then some "Positions must be a non-empty list"
      else checkPositionList 0 items
    | _ => some "Positions must be a list"

/-- Per-element checks of the Market_Summary loop (validators.py lines 56-74). -/
def checkMarketItem (i : Nat) (item : JValue) : Option String :=
  match item with
  | .obj kvs =>
    if (pyGet? kvs "ticker").isNone then
      some ("Market_Summary at index " ++ toString i ++ " missing \x27ticker\x27")
    else if (pyGet? kvs "current_price").isNone then
      some ("Market_Summary at index " ++ toString i ++ " missing \x27current_price\x27")
    else if (pyGet? kvs "category").isNone then
      some ("Market_Summary at index " ++ toString i ++ " missing \x27category\x27")
    else if !isStrPy ((pyGet? kvs "ticker").getD JValue.null) then
      some ("Market_Summary at index " ++ toString i ++ ": \x27ticker\x27 must be a string")
    else if !isNumberPy ((pyGet? kvs "current_price").getD JValue.null) then
      some ("Market_Summary at index " ++ toString i ++ ": \x27current_price\x27 must be a number")
    else if !isStrPy ((pyGet? kvs "category").getD JValue.null) then
      some ("Market_Summary at index " ++ toString i ++ ": \x27category\x27 must be a string")
    else none
  | _ => some ("Market_Summary item at index " ++ toString i ++ " must be an object")

/-- The enumerate loop over Market_Summary. -/
def checkMarketList : Nat → List JValue → Option String
  | _, [] => none
  | i, item :: rest =>
    match checkMarketItem i item with
    | some m => some m
    | none => checkMarketList (i + 1) rest

/-- Validation of the Market_Summary field (validators.py lines 45-74);
note the source's empty-list message says "Market Summary" without the
underscore. -/
def checkMarketSummaryField (kvs : List (String × JValue)) : Option String :=
  match pyGet? kvs "Market_Summary" with
  | none => some "Missing required field: Market_Summary"
  | some v =>
    match v with
    | .arr items =>
      if items.isEmpty then some "Market Summary must be a non-empty list"
      else checkMarketList 0 items
    | _ => some "Market_Summary must be a list"

/-- Per-element checks of the market_history loop (validators.py lines 87-106);
day may be an int (hence also a bool) or a string. -/
def checkHistoryItem (i : Nat) (item : JValue) : Option String :=
  match item with
  | .obj kvs =>
    if (pyGet? kvs "ticker").isNone then
      some ("market_history at index " ++ toString i ++ " missing \x27ticker\x27")
    else if (pyGet? kvs "price").isNone then
      some ("market_history at index " ++ toString i ++ " missing \x27price\x27")
    else if (pyGet? kvs "day").isNone then
      some ("market_history at index " ++ toString i ++ " missing \x27day\x27")
    else if !isStrPy ((pyGet? kvs "ticker").getD JValue.null) then
      some ("market_history at index " ++ toString i ++ ": \x27ticker\x27 must be a string")
    else if !isNumberPy ((pyGet? kvs "price").getD JValue.null) then
      some ("market_history at index " ++ toString i ++ ": \x27price\x27 must be a number")
    else if !isIntOrStrPy ((pyGet? kvs "day").getD JValue.null) then
      some ("market_history at index " ++ toString i ++ ": \x27day\x27 must be a string or integer")
    else none
  | _ => some ("market_history item at index " ++ toString i ++ " must be an object")

/-- The enumerate loop over market_history. -/
def checkHistoryList : Nat → List JValue → Option String
  | _, [] => none
  | i, item :: rest =>
    match checkHistoryItem i item with
    | some m => some m
    | none => checkHistoryList (i + 1) rest

/-- Validation of the market_history field (validators.py lines 76-106). -/
def checkHistoryField (kvs : List (String × JValue)) : Option String :=
  match pyGet? kvs "market_history" with
  | none => some "Missing required field: market_history"
  | some v =>
    match v with
    | .arr items =>
      if items.isEmpty then some "market_history must be a non-empty list"
      else checkHistoryList 0 items
    | _ => some "market_history must be a list"

/-- Validation of the optional DAY field (validators.py lines 108-111). -/
def checkDayField (kvs : List (String × JValue)) : Option String :=
  match pyGet? kvs "DAY" with
  | none => none
  | some v =>
    if isStrPy v then none
    else some "DAY must be a string in \x27yyyy-mm-dd\x27 format"

/-- validators.validate_tick_payload: early returns modelled as nested
matches, in the source order (top-level object, Positions, Market_Summary,
market_history, optional DAY). -/
def validate_tick_payload (payload : JValue) : Bool × String :=
  match payload with
  | .obj kvs =>
    match checkPositionsField kvs with
    | some m => (false, m)
    | none =>
      match checkMarketSummaryField kvs with
      | some m => (false, m)
      | none =>
        match checkHistoryField kvs with
        | some m => (false, m)
        | none =>
          match checkDayField kvs with
          | some m => (false, m)
          | none => (true, "")
  | _ => (false, "Payload must be a JSON object")

/- ===== Spec-side statement of the documented validation rules (spec 4.1),
parameterised by the reading of "numeric" and of "integer or string". ===== -/

/-- Documented rule for a Positions element: an object with string ticker,
numeric quantity, numeric purchase_price. -/
def specPositionElemWith (isNum : JValue → Bool) (v : JValue) : Bool :=
  match v with
  | .obj kvs =>
    isStrPy ((pyGet? kvs "ticker").getD JValue.null)
      && isNum ((pyGet? kvs "quantity").getD JValue.null)
      && isNum ((pyGet? kvs "purchase_price").getD JValue.null)
  | _ => false

/-- Documented rule 2: Positions present, a non-empty list of well-shaped
elements. -/
def specPositionsRuleWith (isNum : JValue → Bool) (kvs : List (String × JValue)) : Bool :=
  match pyGet? kvs "Positions" with
  | some (JValue.arr items) => !items.isEmpty && items.all (specPositionElemWith isNum)
  | _ => false

/-- Documented rule for a Market_Summary element: an object with string
ticker, numeric current_price, string category. -/
def specMarketElemWith (isNum : JValue → Bool) (v : JValue) : Bool :=
  match v with
  | .obj kvs =>
    isStrPy ((pyGet? kvs "ticker").getD JValue.null)
      && isNum ((pyGet? kvs "current_price").getD JValue.null)
      && isStrPy ((pyGet? kvs "category").getD JValue.null)
  | _ => false

/-- Documented rule 3: Market_Summary present, a non-empty list of
well-shaped elements. -/
def specMarketRuleWith (isNum : JValue → Bool) (kvs : List (String × JValue)) : Bool :=
  match pyGet? kvs "Market_Summary" with
  | some (JValue.arr items) => !items.isEmpty && items.all (specMarketElemWith isNum)
  | _ => false

/-- Documented rule for a market_history element: an object with string
ticker, numeric price, and day that is an integer or a string. -/
def specHistoryElemWith (isNum isDay : JValue → Bool) (v : JValue) : Bool :=
  match v with
  | .obj kvs =>
    isStrPy ((pyGet? kvs "ticker").getD JValue.null)
      && isNum ((pyGet? kvs "price").getD JValue.null)
      && isDay ((pyGet? kvs "day").getD JValue.null)
  | _ => false

/-- Documented rule 4: market_history present, a non-empty list of
well-shaped elements. -/
def specHistoryRuleWith (isNum isDay : JValue → Bool) (kvs : List (String × JValue)) : Bool :=
  match pyGet? kvs "market_history" with
  | some (JValue.arr items) => !items.isEmpty && items.all (specHistoryElemWith isNum isDay)
  | _ => false

/-- Documented rule 5: optional DAY, if present, must be a string. -/
def specDayRule (kvs : List (String × JValue)) : Bool :=
  match pyGet? kvs "DAY" with
  | none => true
  | some v => isStrPy v

/-- All documented rules: top-level object plus rules 2-5. -/
def specValidWith (isNum isDay : JValue → Bool) (p : JValue) : Bool :=
  match p with
  | .obj kvs =>
    specPositionsRuleWith isNum kvs && specMarketRuleWith isNum kvs
      && specHistoryRuleWith isNum isDay kvs && specDayRule kvs
  | _ => false

/-- JSON reading of "numeric" in the spec: ints and floats, not booleans. -/
def jsonIsNumber : JValue → Bool
  | .i _ => true
  | .f _ => true
  | _ => false

/-- JSON reading of "integer or string" in the spec: not booleans. -/
def jsonIsIntOrStr : JValue → Bool
  | .i _ => true
  | .s _ => true
  | _ => false

/-- The documented rules under the JSON reading of "numeric". -/
def validPayloadSpec (p : JValue) : Bool :=
  specValidWith jsonIsNumber jsonIsIntOrStr p

/-- The documented rules under Python isinstance semantics, where booleans
count as ints. -/
def validPayloadPy (p : JValue) : Bool :=
  specValidWith isNumberPy isIntOrStrPy p

/- ===== Typed records used past validation (business.py, aitool.py) ===== -/

/-- A portfolio position as consumed by business.py. -/
structure Position where
  ticker : String
  quantity : Rat
  purchase_price : Rat
deriving DecidableEq

/-- A Market_Summary entry as consumed by business.py. -/
structure MarketEntry where
  ticker : String
  current_price : Rat
  category : String
deriving DecidableEq

/-- A normalized trade recommendation
{action, ticker, quantity} (aitool.py). -/
structure Recommendation where
  action : String
  ticker : String
  quantity : Int
deriving DecidableEq

/-- One row of the persisted positions snapshot document (business.py). -/
structure PositionSnapshot where
  ticker : String
  quantity : Rat
  purchase_price : Rat
  current_price : Rat
  unrealized_pnl : Rat
deriving DecidableEq

/-- One entry of the persisted trading-history document (business.py
log_ai_recommendations); the quantity field is optional. -/
structure HistoryEntry where
  date : String
  ticker : String
  action : String
  price : Rat
  note : String
  quantity : Option Int
deriving DecidableEq

/-- The validated tick payload as consumed by analyze_tick: Positions,
Market_Summary, and the optional DAY string. -/
structure TickPayload where
  positions : List Position
  market_summary : List MarketEntry
  day : Option String

/-- Outcome of the recommendation request: evaluate_portfolio either
returns (text, recommendations) or raises. -/
inductive AIResult where
  | ok (text : String) (recs : List Recommendation)
  | exn

/-- The trade-execution HTTP response: a status code and the optional
Positions list of the JSON body (none models an absent key). -/
structure HttpResponse where
  status : Nat
  positionsField : Option (List Position)
deriving DecidableEq

/-- A structured tool invocation from the LLM response: its type, function
name, and the JSON parse of its arguments (none models a parse failure). -/
structure ToolCall where
  type : String
  name : String
  args : Option JValue

/- ===== aitool.py : AITradingTool.evaluate_portfolio ===== -/

/-- Normalization of one structured item (aitool.py lines 217-223):
action := str(item.get("action", "")).upper(), ticker :=
str(item.get("ticker", "")).strip(), quantity := int(item.get("quantity", 0)).
A failing int() coercion, or a non-dict item, raises (modelled as none). -/
def normalizeItem (item : JValue) : Option Recommendation :=
  match item with
  | .obj kvs =>
    match pyInt ((pyGet? kvs "quantity").getD (JValue.i 0)) with
    | some q =>
      some { action := pyUpper (pyStr ((pyGet? kvs "action").getD (JValue.s "")))
           , ticker := pyStrip (pyStr ((pyGet? kvs "ticker").getD (JValue.s "")))
           , quantity := q }
    | none => none
  | _ => none

/-- The normalization loop over the recs list (aitool.py lines 216-223):
items are normalized in order into the normalized list; the first raising
item aborts the whole loop (modelled as none). -/
def normalizeItems : List JValue → Option (List Recommendation)
  | [] => some []
  | item :: rest =>
    match normalizeItem item with
    | some r => (normalizeItems rest).map (fun rs => r :: rs)
    | none => none

/-- The try-block body for one matching tool call (aitool.py lines 211-227):
none models any exception (argument parse failure, non-dict args,
normalization failure) and also the recs-not-a-list case, in all of which
the recommendations variable keeps its previous value. -/
def callOutcome (call : ToolCall) : Option (List Recommendation) :=
  if call.type = "function" && call.name = "set_recommendations" then
    match call.args with
    | none => none
    | some (JValue.obj kvs) =>
      match (pyGet? kvs "recommendations").getD (JValue.arr []) with
      | JValue.arr items => normalizeItems items
      | _ => none
    | some _ => none
  else none

/-- Effect of one loop iteration on the recommendations variable. -/
def applyCall (acc : List Recommendation) (call : ToolCall) : List Recommendation :=
  (callOutcome call).getD acc

/-- The full extraction loop over tool_calls (aitool.py lines 205-227):
recommendations starts empty and each successfully parsed matching call
overwrites it; there is no break statement. -/
def extractRecommendations (calls : List ToolCall) : List Recommendation :=
  calls.foldl applyCall []

/- ===== business.py ===== -/

/-- The dict comprehension mapping ticker to current_price, built at
business.py lines 41, 81, 167 and 210; later entries overwrite earlier. -/
def pyPriceDict (market_summary : List MarketEntry) (t : String) : Option Rat :=
  market_summary.foldl
    (fun acc item => if item.ticker = t then some item.current_price else acc) none

/-- business.save_positions: the positions snapshot document written from
the inbound payload (lines 35-67); current_price defaults to purchase_price
when the ticker has no market-summary entry. -/
def save_positions_doc (payload : TickPayload) : List PositionSnapshot :=
  payload.positions.map (fun position =>
    let current_price := (pyPriceDict payload.market_summary position.ticker).getD
      position.purchase_price
    let unrealized_pnl := (current_price - position.purchase_price) * position.quantity
    { ticker := position.ticker
    , quantity := position.quantity
    , purchase_price := position.purchase_price
    , current_price := current_price
    , unrealized_pnl := round2 unrealized_pnl })

/-- business.update_positions_from_api: the snapshot document written from
the trade service's returned positions (lines 158-193). -/
def update_positions_from_api_doc (api_positions : List Position)
    (market_summary : List MarketEntry) : List PositionSnapshot :=
  api_positions.map (fun position =>
    let current_price := (pyPriceDict market_summary position.ticker).getD
      position.purchase_price
    let unrealized_pnl := (current_price - position.purchase_price) * position.quantity
    { ticker := position.ticker
    , quantity := position.quantity
    , purchase_price := position.purchase_price
    , current_price := current_price
    , unrealized_pnl := round2 unrealized_pnl })

/-- The transaction record built per recommendation inside
log_ai_recommendations (business.py lines 84-97); quantity is included only
when the recommended quantity is greater than zero, price defaults to 0.0
when the ticker has no market-summary entry. -/
def mkTransaction (date_str : String) (market_summary : List MarketEntry)
    (rec : Recommendation) : HistoryEntry :=
  { date := date_str
  , ticker := rec.ticker
  , action := rec.action
  , price := (pyPriceDict market_summary rec.ticker).getD 0
  , note := "AI recommendation: " ++ rec.action ++ " " ++ toString rec.quantity ++ " shares"
  , quantity := if rec.quantity > 0 then some rec.quantity else none }

/-- business.log_ai_recommendations: the rewritten trading-history document
given the previously read history (lines 69-103). -/
def log_ai_recommendations_doc (history : List HistoryEntry)
    (recommendations : List Recommendation) (date_str : String)
    (market_summary : List MarketEntry) : List HistoryEntry :=
  recommendations.foldl
    (fun h rec => h ++ [mkTransaction date_str market_summary rec]) history

/-- The unrealized-P&L accumulation loop of analyze_tick (business.py
lines 216-232): positions whose ticker is in the current_prices dict
contribute (current_price - purchase_price) * quantity and are counted. -/
def computeAccounting (positions : List Position)
    (market_summary : List MarketEntry) : Rat × Nat :=
  positions.foldl
    (fun acc position =>
      match pyPriceDict market_summary position.ticker with
      | some current_price =>
        (acc.1 + (current_price - position.purchase_price) * position.quantity, acc.2 + 1)
      | none => acc)
    (0, 0)

/-- business.make_trade, with its externalities as parameters: returns none
when the API key is falsy, the request raises, or the status is not 200;
on status 200 it returns the body's Positions list, defaulting to []. -/
def make_trade_result (api_key : Option String)
    (response : Option HttpResponse) : Option (List Position) :=
  if api_key.getD "" = "" then none
  else
    match response with
    | none => none
    | some r =>
      if r.status = 200 then some (r.positionsField.getD []) else none

/-- The observable effects of one analyze_tick call. -/
structure TickEffects where
  summary_positions_evaluated : Nat
  summary_unrealized_pnl : Rat
  recommendations : List Recommendation
  loggedHistory : List HistoryEntry
  savedSnapshot : List PositionSnapshot
  result : String

/-- business.analyze_tick (lines 195-285), with the AI call, the mothership
API key/response and the current date supplied as parameters. The STAY
fallback runs only in the except branch of the AI call; logging and the
trade call run only when recommendations is non-empty (Python truthiness);
a falsy trade result (None or []) persists the payload-derived snapshot. -/
def analyze_tick_model (payload : TickPayload) (history0 : List HistoryEntry)
    (ai : AIResult) (api_key : Option String) (httpResponse : Option HttpResponse)
    (today : String) : TickEffects :=
  let acct := computeAccounting payload.positions payload.market_summary
  let recommendations :=
    match ai with
    | .ok _ recs => recs
    | .exn =>
      payload.positions.foldl
        (fun acc position =>
          if position.ticker ≠ "CASH" then
            acc ++ [{ action := "STAY", ticker := position.ticker, quantity := 0 }]
          else acc)
        []
  let date_str := payload.day.getD today
  let history1 :=
    if recommendations.isEmpty then history0
    else log_ai_recommendations_doc history0 recommendations date_str payload.market_summary
  let updated_positions := make_trade_result api_key httpResponse
  let saved :=
    if recommendations.isEmpty then save_positions_doc payload
    else if (updated_positions.getD []).isEmpty then save_positions_doc payload
    else update_positions_from_api_doc (updated_positions.getD []) payload.market_summary
  { summary_positions_evaluated := acct.2
  , summary_unrealized_pnl := round2 acct.1
  , recommendations := recommendations
  , loggedHistory := history1
  , savedSnapshot := saved
  , result := "success" }

/- ===== Concrete sample inputs used by the theorems below ===== -/

/-- A fully valid tick payload in JSON form. -/
def samplePayloadJson : JValue := JValue.obj
  [ ("Positions", JValue.arr [JValue.obj
      [("ticker", JValue.s "AAPL"), ("quantity", JValue.i 10), ("purchase_price", JValue.f 180.0)]])
  , ("Market_Summary", JValue.arr [JValue.obj
      [("ticker", JValue.s "AAPL"), ("current_price", JValue.f 182.5), ("category", JValue.s "high")]])
  , ("market_history", JValue.arr [JValue.obj
      [("ticker", JValue.s "AAPL"), ("price", JValue.f 179.8), ("day", JValue.i 1)]]) ]

/-- The same payload with quantity replaced by the boolean true. -/
def boolQuantityPayload : JValue := JValue.obj
  [ ("Positions", JValue.arr [JValue.obj
      [("ticker", JValue.s "AAPL"), ("quantity", JValue.b true), ("purchase_price", JValue.f 180.0)]])
  , ("Market_Summary", JValue.arr [JValue.obj
      [("ticker", JValue.s "AAPL"), ("current_price", JValue.f 182.5), ("category", JValue.s "high")]])
  , ("market_history", JValue.arr [JValue.obj
      [("ticker", JValue.s "AAPL"), ("price", JValue.f 179.8), ("day", JValue.i 1)]]) ]

/-- A typed payload holding one AAPL position and the CASH sentinel. -/
def c1Payload : TickPayload :=
  { positions := [ { ticker := "AAPL", quantity := 10, purchase_price := 180 }
                 , { ticker := "CASH", quantity := 1000, purchase_price := 1 } ]
  , market_summary := [ { ticker := "AAPL", current_price := 182.5, category := "high" } ]
  , day := some "2025-06-01" }

/-- The accounting example of the spec: one AAPL position, one summary entry. -/
def c3Payload : TickPayload :=
  { positions := [ { ticker := "AAPL", quantity := 10, purchase_price := 180 } ]
  , market_summary := [ { ticker := "AAPL", current_price := 182.5, category := "high" } ]
  , day := none }

/-- A structured item that normalizes cleanly. -/
def c4goodItem : JValue := JValue.obj
  [("action", JValue.s "buy"), ("ticker", JValue.s "MSFT"), ("quantity", JValue.i 3)]

/-- A structured item whose quantity string cannot be coerced to an int. -/
def c4badItem : JValue := JValue.obj
  [("action", JValue.s "sell"), ("ticker", JValue.s "AAPL"), ("quantity", JValue.s "abc")]

/-- A matching tool call whose batch mixes the good and the bad item. -/
def c4Call : ToolCall :=
  { type := "function", name := "set_recommendations"
  , args := some (JValue.obj [("recommendations", JValue.arr [c4goodItem, c4badItem])]) }

/-- Item bindings without a quantity key. -/
def c4MissingQty : List (String × JValue) :=
  [("action", JValue.s "hold"), ("ticker", JValue.s " GOOG ")]

/-- First matching invocation, recommending BUY AAPL 1. -/
def c5FirstCall : ToolCall :=
  { type := "function", name := "set_recommendations"
  , args := some (JValue.obj [("recommendations", JValue.arr
      [JValue.obj [("action", JValue.s "BUY"), ("ticker", JValue.s "AAPL"),
        ("quantity", JValue.i 1)]])]) }

/-- Second matching invocation, recommending SELL MSFT 2. -/
def c5SecondCall : ToolCall :=
  { type := "function", name := "set_recommendations"
  , args := some (JValue.obj [("recommendations", JValue.arr
      [JValue.obj [("action", JValue.s "SELL"), ("ticker", JValue.s "MSFT"),
        ("quantity", JValue.i 2)]])]) }

/-- The normalization example item of the spec. -/
def c6SellKvs : List (String × JValue) :=
  [("action", JValue.s "sell"), ("ticker", JValue.s " AAPL "), ("quantity", JValue.s "5")]

/-- Another concrete item, with an integer quantity. -/
def c6BuyKvs : List (String × JValue) :=
  [("action", JValue.s "buy"), ("ticker", JValue.s "msft "), ("quantity", JValue.i 7)]

/-- A typed payload used to exercise the forwarding-failure path. -/
def c7Payload : TickPayload :=
  { positions := [ { ticker := "AAPL", quantity := 10, purchase_price := 180 }
                 , { ticker := "CASH", quantity := 1000, purchase_price := 1 } ]
  , market_summary := [ { ticker := "AAPL", current_price := 182.5, category := "high" } ]
  , day := some "2025-01-02" }

/-- A typed payload used to exercise the empty-confirmed-positions path. -/
def c9Payload : TickPayload :=
  { positions := [ { ticker := "AAPL", quantity := 10, purchase_price := 180 } ]
  , market_summary := [ { ticker := "AAPL", current_price := 182.5, category := "high" } ]
  , day := none }

/- ===== Helper lemmas and claim theorems ===== -/

theorem append_ne_empty (a b : String) (ha : a ≠ "") : a ++ b ≠ "" := by
  intro h
  apply ha
  have h2 : a.data ++ b.data = [] := congrArg String.data h
  rcases List.append_eq_nil.mp h2 with ⟨h3, _⟩
  cases a with
  | mk da => exact congrArg String.mk h3

theorem prefixed_ne_empty (a : String) (ha : a ≠ "") (b c : String) : a ++ b ++ c ≠ "" :=
  append_ne_empty _ _ (append_ne_empty _ _ ha)

theorem checkPositionItem_ne_empty (i : Nat) (v : JValue) (m : String)
    (h : checkPositionItem i v = some m) : m ≠ "" := by
  cases v <;>
    (simp only [checkPositionItem] at h
     repeat' split at h) <;>
    first
      | exact Option.noConfusion h
      | (injection h with h2; subst h2; exact prefixed_ne_empty _ (by decide) _ _)

theorem checkPositionItem_eq_none (i : Nat) (v : JValue) :
    checkPositionItem i v = none ↔ specPositionElemWith isNumberPy v = true := by
  cases v <;> simp only [checkPositionItem, specPositionElemWith] <;> try simp
  case obj kvs =>
    cases h1 : pyGet? kvs "ticker" <;> cases h2 : pyGet? kvs "quantity" <;>
      cases h3 : pyGet? kvs "purchase_price" <;>
      simp only [h1, h2, h3, Option.isNone_none, Option.isNone_some, Option.getD_some,
        Option.getD_none, if_true, if_false, Bool.not_eq_true', reduceIte] <;>
      ((repeat' split) <;> simp_all [isStrPy, isNumberPy])

theorem checkPositionList_eq_none (items : List JValue) :
    ∀ i, checkPositionList i items = none ↔
      items.all (specPositionElemWith isNumberPy) = true := by
  induction items with
  | nil => intro i; simp [checkPositionList]
  | cons v rest ih =>
    intro i
    simp only [checkPositionList, List.all_cons, Bool.and_eq_true]
    cases h : checkPositionItem i v with
    | some m =>
      have hv : ¬ specPositionElemWith isNumberPy v = true := by
        intro hc
        rw [← checkPositionItem_eq_none i v] at hc
        rw [hc] at h
        exact Option.noConfusion h
      simp [hv]
    | none =>
      simp [(checkPositionItem_eq_none i v).mp h, ih (i + 1)]

theorem checkPositionList_ne_empty (items : List JValue) :
    ∀ i m, checkPositionList i items = some m → m ≠ "" := by
  induction items with
  | nil => intro i m h; exact Option.noConfusion h
  | cons v rest ih =>
    intro i m h
    simp only [checkPositionList] at h
    cases hv : checkPositionItem i v with
    | some m2 =>
      rw [hv] at h
      injection h with h2
      subst h2
      exact checkPositionItem_ne_empty i v m2 hv
    | none =>
      rw [hv] at h
      exact ih (i + 1) m h

theorem checkPositionsField_eq_none (kvs : List (String × JValue)) :
    checkPositionsField kvs = none ↔ specPositionsRuleWith isNumberPy kvs = true := by
  unfold checkPositionsField specPositionsRuleWith
  cases h : pyGet? kvs "Positions" with
  | none => simp
  | some v =>
    cases v <;> simp
    case arr items =>
      cases items with
      | nil => simp
      | cons a as => simp [checkPositionList_eq_none]

theorem checkPositionsField_ne_empty (kvs : List (String × JValue)) (m : String)
    (h : checkPositionsField kvs = some m) : m ≠ "" := by
  unfold checkPositionsField at h
  repeat' split at h
  all_goals first
    | exact Option.noConfusion h
    | (injection h with h2; subst h2; decide)
    | (exact checkPositionList_ne_empty _ 0 m h)

theorem checkMarketItem_ne_empty (i : Nat) (v : JValue) (m : String)
    (h : checkMarketItem i v = some m) : m ≠ "" := by
  cases v <;>
    (simp only [checkMarketItem] at h
     repeat' split at h) <;>
    first
      | exact Option.noConfusion h
      | (injection h with h2; subst h2; exact prefixed_ne_empty _ (by decide) _ _)

theorem checkMarketItem_eq_none (i : Nat) (v : JValue) :
    checkMarketItem i v = none ↔ specMarketElemWith isNumberPy v = true := by
  cases v <;> simp only [checkMarketItem, specMarketElemWith] <;> try simp
  case obj kvs =>
    cases h1 : pyGet? kvs "ticker" <;> cases h2 : pyGet? kvs "current_price" <;>
      cases h3 : pyGet? kvs "category" <;>
      simp only [h1, h2, h3, Option.isNone_none, Option.isNone_some, Option.getD_some,
        Option.getD_none, if_true, if_false, Bool.not_eq_true', reduceIte] <;>
      ((repeat' split) <;> simp_all [isStrPy, isNumberPy])

theorem checkMarketList_eq_none (items : List JValue) :
    ∀ i, checkMarketList i items = none ↔
      items.all (specMarketElemWith isNumberPy) = true := by
  induction items with
  | nil => intro i; simp [checkMarketList]
  | cons v rest ih =>
    intro i
    simp only [checkMarketList, List.all_cons, Bool.and_eq_true]
    cases h : checkMarketItem i v with
    | some m =>
      have hv : ¬ specMarketElemWith isNumberPy v = true := by
        intro hc
        rw [← checkMarketItem_eq_none i v] at hc
        rw [hc] at h
        exact Option.noConfusion h
      simp [hv]
    | none =>
      simp [(checkMarketItem_eq_none i v).mp h, ih (i + 1)]

theorem checkMarketList_ne_empty (items : List JValue) :
    ∀ i m, checkMarketList i items = some m → m ≠ "" := by
  induction items with
  | nil => intro i m h; exact Option.noConfusion h
  | cons v rest ih =>
    intro i m h
    simp only [checkMarketList] at h
    cases hv : checkMarketItem i v with
    | some m2 =>
      rw [hv] at h
      injection h with h2
      subst h2
      exact checkMarketItem_ne_empty i v m2 hv
    | none =>
      rw [hv] at h
      exact ih (i + 1) m h

theorem checkMarketSummaryField_eq_none (kvs : List (String × JValue)) :
    checkMarketSummaryField kvs = none ↔ specMarketRuleWith isNumberPy kvs = true := by
  unfold checkMarketSummaryField specMarketRuleWith
  cases h : pyGet? kvs "Market_Summary" with
  | none => simp
  | some v =>
    cases v <;> simp
    case arr items =>
      cases items with
      | nil => simp
      | cons a as => simp [checkMarketList_eq_none]

theorem checkMarketSummaryField_ne_empty (kvs : List (String × JValue)) (m : String)
    (h : checkMarketSummaryField kvs = some m) : m ≠ "" := by
  unfold checkMarketSummaryField at h
  repeat' split at h
  all_goals first
    | exact Option.noConfusion h
    | (injection h with h2; subst h2; decide)
    | (exact checkMarketList_ne_empty _ 0 m h)

theorem checkHistoryItem_ne_empty (i : Nat) (v : JValue) (m : String)
    (h : checkHistoryItem i v = some m) : m ≠ "" := by
  cases v <;>
    (simp only [checkHistoryItem] at h
     repeat' split at h) <;>
    first
      | exact Option.noConfusion h
      | (injection h with h2; subst h2; exact prefixed_ne_empty _ (by decide) _ _)

theorem checkHistoryItem_eq_none (i : Nat) (v : JValue) :
    checkHistoryItem i v = none ↔ specHistoryElemWith isNumberPy isIntOrStrPy v = true := by
  cases v <;> simp only [checkHistoryItem, specHistoryElemWith] <;> try simp
  case obj kvs =>
    cases h1 : pyGet? kvs "ticker" <;> cases h2 : pyGet? kvs "price" <;>
      cases h3 : pyGet? kvs "day" <;>
      simp only [h1, h2, h3, Option.isNone_none, Option.isNone_some, Option.getD_some,
        Option.getD_none, if_true, if_false, Bool.not_eq_true', reduceIte] <;>
      ((repeat' split) <;> simp_all [isStrPy, isNumberPy, isIntOrStrPy])

theorem checkHistoryList_eq_none (items : List JValue) :
    ∀ i, checkHistoryList i items = none ↔
      items.all (specHistoryElemWith isNumberPy isIntOrStrPy) = true := by
  induction items with
  | nil => intro i; simp [checkHistoryList]
  | cons v rest ih =>
    intro i
    simp only [checkHistoryList, List.all_cons, Bool.and_eq_true]
    cases h : checkHistoryItem i v with
    | some m =>
      have hv : ¬ specHistoryElemWith isNumberPy isIntOrStrPy v = true := by
        intro hc
        rw [← checkHistoryItem_eq_none i v] at hc
        rw [hc] at h
        exact Option.noConfusion h
      simp [hv]
    | none =>
      simp [(checkHistoryItem_eq_none i v).mp h, ih (i + 1)]

theorem checkHistoryList_ne_empty (items : List JValue) :
    ∀ i m, checkHistoryList i items = some m → m ≠ "" := by
  induction items with
  | nil => intro i m h; exact Option.noConfusion h
  | cons v rest ih =>
    intro i m h
    simp only [checkHistoryList] at h
    cases hv : checkHistoryItem i v with
    | some m2 =>
      rw [hv] at h
      injection h with h2
      subst h2
      exact checkHistoryItem_ne_empty i v m2 hv
    | none =>
      rw [hv] at h
      exact ih (i + 1) m h

theorem checkHistoryField_eq_none (kvs : List (String × JValue)) :
    checkHistoryField kvs = none ↔ specHistoryRuleWith isNumberPy isIntOrStrPy kvs = true := by
  unfold checkHistoryField specHistoryRuleWith
  cases h : pyGet? kvs "market_history" with
  | none => simp
  | some v =>
    cases v <;> simp
    case arr items =>
      cases items with
      | nil => simp
      | cons a as => simp [checkHistoryList_eq_none]

theorem checkHistoryField_ne_empty (kvs : List (String × JValue)) (m : String)
    (h : checkHistoryField kvs = some m) : m ≠ "" := by
  unfold checkHistoryField at h
  repeat' split at h
  all_goals first
    | exact Option.noConfusion h
    | (injection h with h2; subst h2; decide)
    | (exact checkHistoryList_ne_empty _ 0 m h)

theorem checkDayField_eq_none (kvs : List (String × JValue)) :
    checkDayField kvs = none ↔ specDayRule kvs = true := by
  unfold checkDayField specDayRule
  cases h : pyGet? kvs "DAY" with
  | none => simp
  | some v => cases hv : isStrPy v <;> simp [hv]

theorem checkDayField_ne_empty (kvs : List (String × JValue)) (m : String)
    (h : checkDayField kvs = some m) : m ≠ "" := by
  unfold checkDayField at h
  repeat' split at h
  all_goals first
    | exact Option.noConfusion h
    | (injection h with h2; subst h2; decide)

/-- Claim C2, counterexample: a payload whose quantity is the boolean true violates the documented "numeric" rule (a JSON boolean is not a number), yet validate_tick_payload accepts it with (true, ""), because Python isinstance treats bool as an int subclass. So the claim as stated fails on the code. -/
theorem c2_bool_quantity_counterexample :
    validPayloadSpec boolQuantityPayload = false
  ∧ validate_tick_payload boolQuantityPayload = (true, "") := by
  constructor <;> decide

/-- Claim C2, amended: reading "numeric" with Python isinstance semantics (booleans count as numbers, and as ints for the day field), every payload satisfying the documented shape rules validates as (true, ""); every violating payload yields (false, m) with m non-empty; and the reported message is produced by the stage of the first violated rule in the documented order (top-level object, then Positions, then Market_Summary, then market_history, then optional DAY), so later rules are not examined. -/
theorem c2_validator_first_violation (p : JValue) :
    (validate_tick_payload p = (true, "") ↔ validPayloadPy p = true)
  ∧ ((validate_tick_payload p).1 = false → (validate_tick_payload p).2 ≠ "")
  ∧ (∀ kvs, p = JValue.obj kvs →
      (specPositionsRuleWith isNumberPy kvs = false →
        ∃ m, checkPositionsField kvs = some m ∧ validate_tick_payload p = (false, m))
    ∧ (specPositionsRuleWith isNumberPy kvs = true →
       specMarketRuleWith isNumberPy kvs = false →
        ∃ m, checkMarketSummaryField kvs = some m ∧ validate_tick_payload p = (false, m))
    ∧ (specPositionsRuleWith isNumberPy kvs = true →
       specMarketRuleWith isNumberPy kvs = true →
       specHistoryRuleWith isNumberPy isIntOrStrPy kvs = false →
        ∃ m, checkHistoryField kvs = some m ∧ validate_tick_payload p = (false, m))
    ∧ (specPositionsRuleWith isNumberPy kvs = true →
       specMarketRuleWith isNumberPy kvs = true →
       specHistoryRuleWith isNumberPy isIntOrStrPy kvs = true →
       specDayRule kvs = false →
        ∃ m, checkDayField kvs = some m ∧ validate_tick_payload p = (false, m))) := by
  refine ⟨?_, ?_, ?_⟩
  · cases p <;>
      simp only [validate_tick_payload, validPayloadPy, specValidWith] <;>
      try simp
    case obj kvs =>
      cases h1 : checkPositionsField kvs <;>
        cases h2 : checkMarketSummaryField kvs <;>
        cases h3 : checkHistoryField kvs <;>
        cases h4 : checkDayField kvs <;>
        simp [h1, h2, h3, h4, Bool.and_eq_true, ← checkPositionsField_eq_none,
          ← checkMarketSummaryField_eq_none, ← checkHistoryField_eq_none,
          ← checkDayField_eq_none]
  · cases p <;>
      first
        | (intro hf; simp only [validate_tick_payload]; decide)
        | skip
    case obj kvs =>
      intro hf
      cases h1 : checkPositionsField kvs with
      | some m =>
        simp [validate_tick_payload, h1]
        exact checkPositionsField_ne_empty kvs m h1
      | none =>
        cases h2 : checkMarketSummaryField kvs with
        | some m =>
          simp [validate_tick_payload, h1, h2]
          exact checkMarketSummaryField_ne_empty kvs m h2
        | none =>
          cases h3 : checkHistoryField kvs with
          | some m =>
            simp [validate_tick_payload, h1, h2, h3]
            exact checkHistoryField_ne_empty kvs m h3
          | none =>
            cases h4 : checkDayField kvs with
            | some m =>
              simp [validate_tick_payload, h1, h2, h3, h4]
              exact checkDayField_ne_empty kvs m h4
            | none =>
              simp [validate_tick_payload, h1, h2, h3, h4] at hf
  · intro kvs hp
    subst hp
    refine ⟨?_, ?_, ?_, ?_⟩
    · intro hr
      cases h1 : checkPositionsField kvs with
      | none =>
        rw [(checkPositionsField_eq_none kvs).mp h1] at hr
        exact Bool.noConfusion hr
      | some m =>
        exact ⟨m, rfl, by simp [validate_tick_payload, h1]⟩
    · intro hr2 hr3
      have h1 : checkPositionsField kvs = none := (checkPositionsField_eq_none kvs).mpr hr2
      cases h2 : checkMarketSummaryField kvs with
      | none =>
        rw [(checkMarketSummaryField_eq_none kvs).mp h2] at hr3
        exact Bool.noConfusion hr3
      | some m =>
        exact ⟨m, rfl, by simp [validate_tick_payload, h1, h2]⟩
    · intro hr2 hr3 hr4
      have h1 : checkPositionsField kvs = none := (checkPositionsField_eq_none kvs).mpr hr2
      have h2 : checkMarketSummaryField kvs = none := (checkMarketSummaryField_eq_none kvs).mpr hr3
      cases h3 : checkHistoryField kvs with
      | none =>
        rw [(checkHistoryField_eq_none kvs).mp h3] at hr4
        exact Bool.noConfusion hr4
      | some m =>
        exact ⟨m, rfl, by simp [validate_tick_payload, h1, h2, h3]⟩
    · intro hr2 hr3 hr4 hr5
      have h1 : checkPositionsField kvs = none := (checkPositionsField_eq_none kvs).mpr hr2
      have h2 : checkMarketSummaryField kvs = none := (checkMarketSummaryField_eq_none kvs).mpr hr3
      have h3 : checkHistoryField kvs = none := (checkHistoryField_eq_none kvs).mpr hr4
      cases h4 : checkDayField kvs with
      | none =>
        rw [(checkDayField_eq_none kvs).mp h4] at hr5
        exact Bool.noConfusion hr5
      | some m =>
        exact ⟨m, rfl, by simp [validate_tick_payload, h1, h2, h3, h4]⟩

/-- Witness for claim C2: the amended theorem applied at a fully valid sample payload, and at the empty object, whose first violated rule is the Positions rule. -/
theorem c2_validator_first_violation_witness :
    validate_tick_payload samplePayloadJson = (true, "")
  ∧ validate_tick_payload (JValue.obj []) = (false, "Missing required field: Positions")
  ∧ (validate_tick_payload (JValue.obj [])).2 ≠ "" := by
  refine ⟨(c2_validator_first_violation samplePayloadJson).1.mpr (by decide), ?_,
    (c2_validator_first_violation (JValue.obj [])).2.1 (by decide)⟩
  obtain ⟨m, hm, hv⟩ :=
    (((c2_validator_first_violation (JValue.obj [])).2.2) [] rfl).1 (by decide)
  have hc : checkPositionsField ([] : List (String × JValue))
      = some "Missing required field: Positions" := by decide
  have hmm : "Missing required field: Positions" = m := Option.some.inj (hc.symm.trans hm)
  rw [← hmm] at hv
  exact hv

theorem fallback_foldl (ps : List Position) :
    ∀ acc : List Recommendation,
      ps.foldl (fun acc position =>
        if position.ticker ≠ "CASH" then
          acc ++ [{ action := "STAY", ticker := position.ticker, quantity := 0 }]
        else acc) acc
      = acc ++ (ps.filter (fun p => p.ticker ≠ "CASH")).map
          (fun p => { action := "STAY", ticker := p.ticker, quantity := 0 }) := by
  induction ps with
  | nil => intro acc; simp
  | cons p rest ih =>
    intro acc
    simp only [List.foldl_cons]
    by_cases h : p.ticker = "CASH"
    · rw [if_neg (not_not_intro h), ih]
      simp [List.filter_cons, h]
    · rw [if_pos h, ih]
      simp [List.filter_cons, h]

/-- Claim C1, counterexample: when the recommendation request returns an empty list without raising, the orchestrator does not fall back. For a payload holding AAPL and CASH positions, the tick with an empty AI result keeps an empty recommendation set instead of the claimed single STAY entry for AAPL. -/
theorem c1_empty_result_counterexample :
    (analyze_tick_model c1Payload [] (AIResult.ok "no tool call issued" [])
        (some "key") none "2025-06-01").recommendations = []
  ∧ ([] : List Recommendation) ≠ [{ action := "STAY", ticker := "AAPL", quantity := 0 }] :=
  ⟨rfl, by decide⟩

/-- Claim C1, amended: the synthetic fallback runs exactly when the recommendation request raises an exception; in that case the orchestrator uses one STAY-with-quantity-0 entry per non-CASH position of the payload (and none for CASH), while any returned recommendation list, the empty list included, is used unchanged without fallback. -/
theorem c1_fallback_only_on_exception (payload : TickPayload) (history0 : List HistoryEntry)
    (api_key : Option String) (httpResponse : Option HttpResponse) (today : String) :
    (analyze_tick_model payload history0 AIResult.exn api_key httpResponse today).recommendations
      = (payload.positions.filter (fun p => p.ticker ≠ "CASH")).map
          (fun p => { action := "STAY", ticker := p.ticker, quantity := 0 })
  ∧ (∀ text recs,
      (analyze_tick_model payload history0 (AIResult.ok text recs)
          api_key httpResponse today).recommendations = recs) := by
  constructor
  · have h := fallback_foldl payload.positions []
    simp only [List.nil_append] at h
    exact h
  · intro text recs
    rfl

theorem computeAccounting_go (ms : List MarketEntry) (ps : List Position) :
    ∀ acc : Rat × Nat,
      ps.foldl
        (fun acc position =>
          match pyPriceDict ms position.ticker with
          | some current_price =>
            (acc.1 + (current_price - position.purchase_price) * position.quantity, acc.2 + 1)
          | none => acc)
        acc
      = (acc.1 + ((ps.filter (fun p => (pyPriceDict ms p.ticker).isSome)).map
            (fun p => ((pyPriceDict ms p.ticker).getD 0 - p.purchase_price) * p.quantity)).sum,
         acc.2 + (ps.filter (fun p => (pyPriceDict ms p.ticker).isSome)).length) := by
  induction ps with
  | nil => intro acc; simp
  | cons p rest ih =>
    intro acc
    cases h : pyPriceDict ms p.ticker with
    | none =>
      simp only [List.foldl_cons, h]
      rw [ih]
      simp [List.filter_cons, h]
    | some c =>
      simp only [List.foldl_cons, h]
      rw [ih]
      simp only [List.filter_cons, h, Option.isSome_some, if_true, List.map_cons,
        List.sum_cons, List.length_cons, Option.getD_some, Prod.mk.injEq]
      constructor
      · ring
      · omega

/-- Claim C3: the accounting step sums (current_price - purchase_price) * quantity over exactly those positions whose ticker has a market-summary entry and counts exactly those positions; positions without an entry (CASH included, which is not special-cased by name) contribute to neither accumulator; the tick summary reports the total rounded to 2 decimals; and the concrete AAPL example yields unrealized_pnl 25 with positions_evaluated 1. -/
theorem c3_portfolio_accounting :
    (∀ (positions : List Position) (market_summary : List MarketEntry),
      computeAccounting positions market_summary
        = (((positions.filter (fun p => (pyPriceDict market_summary p.ticker).isSome)).map
              (fun p => ((pyPriceDict market_summary p.ticker).getD 0 - p.purchase_price)
                * p.quantity)).sum,
           (positions.filter (fun p => (pyPriceDict market_summary p.ticker).isSome)).length))
  ∧ (∀ payload history0 ai api_key httpResponse today,
      (analyze_tick_model payload history0 ai api_key httpResponse today).summary_unrealized_pnl
        = round2 (computeAccounting payload.positions payload.market_summary).1
      ∧ (analyze_tick_model payload history0 ai api_key httpResponse today).summary_positions_evaluated
        = (computeAccounting payload.positions payload.market_summary).2)
  ∧ ((analyze_tick_model c3Payload [] AIResult.exn none none "2026-01-01").summary_unrealized_pnl
        = 25
     ∧ (analyze_tick_model c3Payload [] AIResult.exn none none "2026-01-01").summary_positions_evaluated
        = 1) := by
  refine ⟨?_, ?_, ?_⟩
  · intro positions market_summary
    have h := computeAccounting_go market_summary positions (0, 0)
    simpa [computeAccounting] using h
  · intro payload history0 ai api_key httpResponse today
    exact ⟨rfl, rfl⟩
  · constructor
    · show round2 (computeAccounting c3Payload.positions c3Payload.market_summary).1 = 25
      norm_num +decide [computeAccounting, pyPriceDict, c3Payload, List.foldl, round2, pyRoundInt]
    · show (computeAccounting c3Payload.positions c3Payload.market_summary).2 = 1
      norm_num +decide [computeAccounting, pyPriceDict, c3Payload, List.foldl]

/-- Claim C10: the snapshot document written by update_positions_from_api on positions ps and market summary ms is identical to the one written by save_positions on a payload carrying the same ps and ms; the duplicated per-position computations are equal functions. -/
theorem c10_save_equals_update (ps : List Position) (ms : List MarketEntry)
    (day : Option String) :
    save_positions_doc { positions := ps, market_summary := ms, day := day }
      = update_positions_from_api_doc ps ms := rfl

theorem log_doc_eq_append (history : List HistoryEntry) (recs : List Recommendation)
    (d : String) (ms : List MarketEntry) :
    log_ai_recommendations_doc history recs d ms
      = history ++ recs.map (mkTransaction d ms) := by
  unfold log_ai_recommendations_doc
  induction recs generalizing history with
  | nil => simp
  | cons r rest ih =>
    simp only [List.foldl_cons, List.map_cons]
    rw [ih]
    simp

theorem log_iter_length (ticks : List (List Recommendation × String × List MarketEntry)) :
    ∀ init : List HistoryEntry,
      (ticks.foldl (fun h t => log_ai_recommendations_doc h t.1 t.2.1 t.2.2) init).length
        = init.length + (ticks.map (fun t => t.1.length)).sum := by
  induction ticks with
  | nil => intro init; simp
  | cons t rest ih =>
    intro init
    simp only [List.foldl_cons, List.map_cons, List.sum_cons]
    rw [ih, log_doc_eq_append]
    simp
    omega

/-- Claim C8: logging k recommendations appends exactly k entries to the history document (the result is the old history plus one mapped transaction per recommendation), after N ticks the history length is the sum of the batch sizes, and an appended entry carries the quantity field exactly when the recommended quantity is greater than zero. -/
theorem c8_history_append :
    (∀ history recs d ms,
      log_ai_recommendations_doc history recs d ms = history ++ recs.map (mkTransaction d ms))
  ∧ (∀ history recs d ms,
      (log_ai_recommendations_doc history recs d ms).length = history.length + recs.length)
  ∧ (∀ ticks : List (List Recommendation × String × List MarketEntry),
      (ticks.foldl (fun h t => log_ai_recommendations_doc h t.1 t.2.1 t.2.2) []).length
        = (ticks.map (fun t => t.1.length)).sum)
  ∧ (∀ d ms rec, ((mkTransaction d ms rec).quantity).isSome = true ↔ 0 < rec.quantity) := by
  refine ⟨log_doc_eq_append, ?_, ?_, ?_⟩
  · intro history recs d ms
    rw [log_doc_eq_append]
    simp
  · intro ticks
    have h := log_iter_length ticks []
    simpa using h
  · intro d ms rec
    by_cases h : rec.quantity > 0 <;> simp [mkTransaction, h]

theorem normalizeItems_none_of_mem (items : List JValue) (item : JValue)
    (hmem : item ∈ items) (hfail : normalizeItem item = none) :
    normalizeItems items = none := by
  induction items with
  | nil => cases hmem
  | cons a rest ih =>
    rcases List.mem_cons.mp hmem with h | h
    · subst h
      simp [normalizeItems, hfail]
    · cases ha : normalizeItem a <;> simp [normalizeItems, ha, ih h]

/-- Claim C4, counterexample: a batch containing one well-formed item and one item whose quantity cannot be coerced to an integer yields an empty recommendation list: the well-formed item is discarded with the whole batch rather than returned with the bad field defaulted to 0. -/
theorem c4_batch_discard_counterexample :
    extractRecommendations [c4Call] = []
  ∧ normalizeItem c4goodItem = some { action := "BUY", ticker := "MSFT", quantity := 3 }
  ∧ normalizeItem c4badItem = none
  ∧ extractRecommendations [c4Call]
      ≠ [ { action := "BUY", ticker := "MSFT", quantity := 3 }
        , { action := "SELL", ticker := "AAPL", quantity := 0 } ] :=
  ⟨by decide, by decide, by decide, by decide⟩

/-- Claim C4, amended: a coercion failure in any single item aborts normalization of the whole batch, so the tool-call result is discarded and the recommendations variable keeps its previous value; defaulting to 0 happens only when the quantity key is absent from an item, not on coercion failure. -/
theorem c4_coercion_discards_batch :
    (∀ (items : List JValue) (item : JValue), item ∈ items → normalizeItem item = none →
        normalizeItems items = none)
  ∧ (∀ (acc : List Recommendation) (call : ToolCall), callOutcome call = none →
        applyCall acc call = acc)
  ∧ (∀ kvs : List (String × JValue), pyGet? kvs "quantity" = none →
        normalizeItem (JValue.obj kvs)
          = some { action := pyUpper (pyStr ((pyGet? kvs "action").getD (JValue.s "")))
                 , ticker := pyStrip (pyStr ((pyGet? kvs "ticker").getD (JValue.s "")))
                 , quantity := 0 }) := by
  refine ⟨normalizeItems_none_of_mem, ?_, ?_⟩
  · intro acc call h
    simp [applyCall, h]
  · intro kvs h
    simp [normalizeItem, h, pyInt]

/-- Witness for claim C4: the amended theorem applied to a singleton batch with an uncoercible quantity, to a failing call with a non-empty accumulator, and to an item missing its quantity key. -/
theorem c4_coercion_discards_batch_witness :
    normalizeItems [c4badItem] = none
  ∧ applyCall [{ action := "BUY", ticker := "MSFT", quantity := 3 }]
      { type := "function", name := "set_recommendations", args := none }
      = [{ action := "BUY", ticker := "MSFT", quantity := 3 }]
  ∧ normalizeItem (JValue.obj c4MissingQty)
      = some { action := "HOLD", ticker := "GOOG", quantity := 0 } := by
  refine ⟨c4_coercion_discards_batch.1 [c4badItem] c4badItem (List.mem_singleton.mpr rfl)
      (by decide),
    c4_coercion_discards_batch.2.1 _ _ (by decide), ?_⟩
  have h := c4_coercion_discards_batch.2.2 c4MissingQty rfl
  exact h.trans (by decide)

/-- Claim C5, counterexample: with two structured invocations both named set_recommendations, extraction returns the recommendations of the second invocation, not of the first as claimed; the loop has no break statement. -/
theorem c5_first_call_counterexample :
    extractRecommendations [c5FirstCall, c5SecondCall]
      = [{ action := "SELL", ticker := "MSFT", quantity := 2 }]
  ∧ callOutcome c5FirstCall = some [{ action := "BUY", ticker := "AAPL", quantity := 1 }]
  ∧ ([{ action := "SELL", ticker := "MSFT", quantity := 2 }] : List Recommendation)
      ≠ [{ action := "BUY", ticker := "AAPL", quantity := 1 }] :=
  ⟨by decide, by decide, by decide⟩

/-- Claim C5, amended: the extraction returns the recommendations of the last matching invocation whose arguments parse and normalize successfully; a matching invocation that fails to parse leaves the previously extracted result unchanged. -/
theorem c5_last_matching_call_wins :
    (∀ (calls : List ToolCall) (call : ToolCall) (recs : List Recommendation),
        callOutcome call = some recs →
        extractRecommendations (calls ++ [call]) = recs)
  ∧ (∀ (calls : List ToolCall) (call : ToolCall),
        callOutcome call = none →
        extractRecommendations (calls ++ [call]) = extractRecommendations calls) := by
  constructor
  · intro calls call recs h
    unfold extractRecommendations
    rw [List.foldl_append]
    simp [applyCall, h]
  · intro calls call h
    unfold extractRecommendations
    rw [List.foldl_append]
    simp [applyCall, h]

/-- Witness for claim C5: the amended theorem applied to a concrete call list ending in a successfully parsing invocation. -/
theorem c5_last_matching_call_wins_witness :
    extractRecommendations [c5FirstCall, c5FirstCall, c5SecondCall]
      = [{ action := "SELL", ticker := "MSFT", quantity := 2 }] := by
  have h := c5_last_matching_call_wins.1 [c5FirstCall, c5FirstCall] c5SecondCall
    [{ action := "SELL", ticker := "MSFT", quantity := 2 }] (by decide)
  exact h

/-- Claim C6: normalization maps each structured item by uppercasing the action, stripping whitespace from the ticker and coercing the quantity to an integer; in particular the item with action "sell", ticker " AAPL " and quantity "5" normalizes to SELL, AAPL, 5. -/
theorem c6_normalization :
    (∀ (kvs : List (String × JValue)) (q : Int),
        pyInt ((pyGet? kvs "quantity").getD (JValue.i 0)) = some q →
        normalizeItem (JValue.obj kvs)
          = some { action := pyUpper (pyStr ((pyGet? kvs "action").getD (JValue.s "")))
                 , ticker := pyStrip (pyStr ((pyGet? kvs "ticker").getD (JValue.s "")))
                 , quantity := q })
  ∧ normalizeItem (JValue.obj c6SellKvs)
      = some { action := "SELL", ticker := "AAPL", quantity := 5 } := by
  constructor
  · intro kvs q h
    simp [normalizeItem, h]
  · decide

/-- Witness for claim C6: the general normalization shape applied at a concrete item with integer quantity 7. -/
theorem c6_normalization_witness :
    normalizeItem (JValue.obj c6BuyKvs)
      = some { action := "BUY", ticker := "msft", quantity := 7 } := by
  have h := c6_normalization.1 c6BuyKvs 7 (by decide)
  exact h.trans (by decide)

/-- Claim C7: a trade-execution failure (no response from a network error or exception, or a non-200 status) makes make_trade return nothing, and then the persisted snapshot is recomputed from the inbound payload positions and market summary, each current_price taken from the matching summary entry and defaulting to purchase_price, rather than left unchanged. -/
theorem c7_trade_failure_persists_payload (payload : TickPayload)
    (history0 : List HistoryEntry) (text : String) (recs : List Recommendation)
    (api_key : Option String) (response : Option HttpResponse) (today : String) :
    (response = none → make_trade_result api_key response = none)
  ∧ (∀ r, response = some r → r.status ≠ 200 → make_trade_result api_key response = none)
  ∧ (make_trade_result api_key response = none →
      (analyze_tick_model payload history0 (AIResult.ok text recs)
          api_key response today).savedSnapshot
        = payload.positions.map (fun position =>
            let current_price :=
              (pyPriceDict payload.market_summary position.ticker).getD position.purchase_price
            { ticker := position.ticker
            , quantity := position.quantity
            , purchase_price := position.purchase_price
            , current_price := current_price
            , unrealized_pnl := round2 ((current_price - position.purchase_price)
                * position.quantity) })) := by
  refine ⟨?_, ?_, ?_⟩
  · intro h
    subst h
    unfold make_trade_result
    split <;> rfl
  · intro r hr hs
    subst hr
    unfold make_trade_result
    split
    · rfl
    · simp [hs]
  · intro h
    show (if recs.isEmpty then save_positions_doc payload
          else if ((make_trade_result api_key response).getD []).isEmpty then
            save_positions_doc payload
          else update_positions_from_api_doc
            ((make_trade_result api_key response).getD []) payload.market_summary)
        = _
    rw [h]
    simp [save_positions_doc]

/-- Witness for claim C7: the theorem applied at a concrete tick whose trade call gets no response, evaluating the persisted snapshot rows. -/
theorem c7_trade_failure_persists_payload_witness :
    (analyze_tick_model c7Payload [] (AIResult.ok "analysis"
        [{ action := "BUY", ticker := "AAPL", quantity := 1 }])
        (some "key") none "2025-01-02").savedSnapshot
      = [ { ticker := "AAPL", quantity := 10, purchase_price := 180
          , current_price := 182.5, unrealized_pnl := 25 }
        , { ticker := "CASH", quantity := 1000, purchase_price := 1
          , current_price := 1, unrealized_pnl := 0 } ] := by
  have h := c7_trade_failure_persists_payload c7Payload [] "analysis"
    [{ action := "BUY", ticker := "AAPL", quantity := 1 }] (some "key") none "2025-01-02"
  refine (h.2.2 (h.1 rfl)).trans ?_
  norm_num +decide [c7Payload, pyPriceDict, List.foldl, round2, pyRoundInt]

/-- Claim C9: an HTTP-200 trade response whose Positions list is empty or absent is treated like a forwarding failure: the orchestrator persists the payload-derived snapshot instead of the empty service-confirmed list (which would have produced an empty document). -/
theorem c9_empty_confirmed_positions (payload : TickPayload)
    (history0 : List HistoryEntry) (text : String) (recs : List Recommendation)
    (api_key : Option String) (today : String) (r : HttpResponse)
    (hstatus : r.status = 200)
    (hempty : r.positionsField = some [] ∨ r.positionsField = none) :
    (analyze_tick_model payload history0 (AIResult.ok text recs)
        api_key (some r) today).savedSnapshot = save_positions_doc payload
  ∧ update_positions_from_api_doc [] payload.market_summary = [] := by
  constructor
  · have hmt : (make_trade_result api_key (some r)).getD [] = ([] : List Position) := by
      unfold make_trade_result
      split
      · rfl
      · simp only [hstatus, if_true, reduceIte]
        rcases hempty with h | h <;> simp [h]
    show (if recs.isEmpty then save_positions_doc payload
          else if ((make_trade_result api_key (some r)).getD []).isEmpty then
            save_positions_doc payload
          else update_positions_from_api_doc
            ((make_trade_result api_key (some r)).getD []) payload.market_summary)
        = save_positions_doc payload
    rw [hmt]
    simp
  · rfl

/-- Witness for claim C9: the theorem applied at a concrete tick whose trade response is HTTP 200 with an empty Positions list. -/
theorem c9_empty_confirmed_positions_witness :
    (analyze_tick_model c9Payload []
        (AIResult.ok "t" [{ action := "STAY", ticker := "AAPL", quantity := 0 }])
        (some "key") (some { status := 200, positionsField := some [] })
        "2025-03-03").savedSnapshot
      = save_positions_doc c9Payload :=
  (c9_empty_confirmed_positions c9Payload [] "t"
    [{ action := "STAY", ticker := "AAPL", quantity := 0 }]
    (some "key") "2025-03-03" { status := 200, positionsField := some [] }
    rfl (Or.inl rfl)).1

end TickService
